import Mathlib

/-!
Verification development for the AutoTraceSDK client-side telemetry
delivery pipeline: circuit breaker, retrying sender, event batcher,
sampling decision engine and request instrumentation hook.

Shallow embedding conventions: JavaScript timestamps (Date.now values,
milliseconds) are modelled as Int and every call of Date.now in the
source becomes an explicit `now` argument; the Delivery Transport is
modelled as an oracle `transport : Nat -> Bool` giving the outcome of
the k-th transport attempt; JS Sets (which preserve insertion order)
are modelled as duplicate-free lists in insertion order.
-/

namespace AIP

/-- TelemetryEvent from the client package types: one observed request
outcome.  The optional open metadata map is not relevant to any
behaviour verified here and is omitted. -/
structure TelemetryEvent where
  request_id : String
  service_name : String
  route : String
  method : String
  status_code : Int
  duration_ms : Int
  timestamp : String
  error_type : Option String := none
  error_message : Option String := none
deriving DecidableEq, Repr

/-- Circuit breaker state enum from sending.ts. -/
inductive CircuitState where
  | CLOSED
  | OPEN
  | HALF_OPEN
deriving DecidableEq, Repr

/-- CircuitBreakerState record from sending.ts. -/
structure CircuitBreakerState where
  state : CircuitState
  failureCount : Nat
  lastFailureTime : Option Int
  successCount : Nat
deriving DecidableEq, Repr

/-- Default constant TIMEOUT_MS from sending.ts. -/
def TIMEOUT_MS : Int := 5000

/-- Default constant MAX_RETRIES from sending.ts. -/
def MAX_RETRIES : Nat := 3

/-- Default constant CIRCUIT_THRESHOLD from sending.ts. -/
def CIRCUIT_THRESHOLD : Nat := 5

/-- Default constant CIRCUIT_RESET_MS from sending.ts. -/
def CIRCUIT_RESET_MS : Int := 30000

/-- createInitialCircuitState from sending.ts. -/
def createInitialCircuitState : CircuitBreakerState :=
  { state := CircuitState.CLOSED
    failureCount := 0
    lastFailureTime := none
    successCount := 0 }

/-- shouldAllowRequest from sending.ts; the Date.now() call is the
explicit `now` argument. -/
def shouldAllowRequest (state : CircuitBreakerState) (resetMs : Int) (now : Int) : Bool :=
  if state.state = CircuitState.CLOSED then
    true
  else if state.state = CircuitState.OPEN then
    match state.lastFailureTime with
    | none => true
    | some t => decide (now - t ≥ resetMs)
  else if state.state = CircuitState.HALF_OPEN then
    decide (state.successCount < 3)
  else
    true

/-- updateCircuitState from sending.ts; the Date.now() calls are the
explicit `now` argument. -/
def updateCircuitState (state : CircuitBreakerState) (success : Bool)
    (threshold : Nat) (now : Int) : CircuitBreakerState :=
  if success then
    if state.state = CircuitState.CLOSED then
      { state with failureCount := 0 }
    else if state.state = CircuitState.HALF_OPEN then
      let newSuccessCount := state.successCount + 1
      if newSuccessCount ≥ 3 then
        createInitialCircuitState
      else
        { state with successCount := newSuccessCount }
    else
      state
  else
    if state.state = CircuitState.CLOSED then
      let newFailureCount := state.failureCount + 1
      if newFailureCount ≥ threshold then
        { state := CircuitState.OPEN
          failureCount := newFailureCount
          lastFailureTime := some now
          successCount := 0 }
      else
        { state with failureCount := newFailureCount, lastFailureTime := some now }
    else if state.state = CircuitState.HALF_OPEN then
      { state := CircuitState.OPEN
        failureCount := state.failureCount + 1
        lastFailureTime := some now
        successCount := 0 }
    else
      { state with lastFailureTime := some now }

/-- Result of one call of the sender function returned by createSender
(sending.ts).  Besides the boolean the source returns, the embedding
records the observable interactions: `circuit` is the sender's circuit
state after the call, `transportCalls` counts how many times
sendHttpRequest was invoked, and `circuitUpdates` is the ordered list
of success flags passed to updateCircuitState during the call. -/
structure DeliverResult where
  ok : Bool
  circuit : CircuitBreakerState
  transportCalls : Nat
  circuitUpdates : List Bool
deriving DecidableEq, Repr

/-- The retry loop inside the sender function of createSender
(sending.ts): attempts are numbered by the oracle index starting at
`k0`; `remaining` is the number of loop iterations left (maxRetries at
the top call).  On a successful transport attempt the circuit receives
one success update and the loop returns true; after the last failed
attempt the circuit receives one failure update and the loop returns
false.  The backoff sleeps do not affect any recorded observable and
are not modelled. -/
def deliverLoop (transport : Nat → Bool) (k0 : Nat) (cs : CircuitBreakerState)
    (threshold : Nat) (now : Int) : Nat → DeliverResult
  | 0 =>
    { ok := false
      circuit := updateCircuitState cs false threshold now
      transportCalls := 0
      circuitUpdates := [false] }
  | remaining + 1 =>
    if transport k0 then
      { ok := true
        circuit := updateCircuitState cs true threshold now
        transportCalls := 1
        circuitUpdates := [true] }
    else
      let rest := deliverLoop transport (k0 + 1) cs threshold now remaining
      { rest with transportCalls := rest.transportCalls + 1 }

/-- The sender function returned by createSender (sending.ts): empty
batches succeed at once; a denied circuit gate fast-fails; an OPEN
state that passes the gate first moves to HALF_OPEN with successCount
reset before the attempts begin. -/
def deliver (events : List TelemetryEvent) (cs : CircuitBreakerState)
    (transport : Nat → Bool) (k0 : Nat) (now : Int) : DeliverResult :=
  if events.isEmpty then
    { ok := true, circuit := cs, transportCalls := 0, circuitUpdates := [] }
  else if !shouldAllowRequest cs CIRCUIT_RESET_MS now then
    { ok := false, circuit := cs, transportCalls := 0, circuitUpdates := [] }
  else
    let cs' := if cs.state = CircuitState.OPEN then
        { cs with state := CircuitState.HALF_OPEN, successCount := 0 }
      else cs
    deliverLoop transport k0 cs' CIRCUIT_THRESHOLD now MAX_RETRIES

/-- Dedup window bound maxDedupeSize of the EventBatcher
(batching.ts). -/
def maxDedupeSize : Nat := 1000

/-- Batcher default maxRetries of the EventBatcher (batching.ts). -/
def batcherMaxRetries : Nat := 3

/-- Mutable fields of the EventBatcher (batching.ts) that the verified
operations touch: the pending queue, the recent-ids dedup window (a JS
Set in insertion order, modelled as a duplicate-free list with the
oldest id first), and the single-flight flag. -/
structure BatcherState where
  queue : List TelemetryEvent
  recentRequestIds : List String
  isFlushing : Bool
deriving DecidableEq, Repr

/-- Batcher state at construction (batching.ts). -/
def initialBatcherState : BatcherState :=
  { queue := [], recentRequestIds := [], isFlushing := false }

/-- EventBatcher.add (batching.ts), without the size-triggered
autoFlush call (flushes are separate operations in the trace model
below): a request_id already in the dedup window is silently dropped,
otherwise the event is appended, its id recorded, and when the window
exceeds maxDedupeSize the oldest id is evicted
(Array.from(set).slice(1)). -/
def EventBatcher.add (s : BatcherState) (e : TelemetryEvent) : BatcherState :=
  if s.recentRequestIds.contains e.request_id then
    s
  else
    let s1 : BatcherState :=
      { s with queue := s.queue ++ [e],
               recentRequestIds := s.recentRequestIds ++ [e.request_id] }
    if s1.recentRequestIds.length > maxDedupeSize then
      { s1 with recentRequestIds := s1.recentRequestIds.drop 1 }
    else
      s1

/-- EventBatcher.getEvents (batching.ts): returns the flush snapshot (a
copy of the whole queue) and clears the queue. -/
def EventBatcher.getEvents (s : BatcherState) : List TelemetryEvent × BatcherState :=
  if s.queue.isEmpty then
    ([], s)
  else
    (s.queue, { s with queue := [] })

/-- The retry loop inside EventBatcher.autoFlush (batching.ts): the
batcher calls its injected sendFunction (the sender of createSender) up
to `remaining` more times, stopping at the first true result.  Returns
the overall result, the circuit state left in the sender closure, and
the total number of transport attempts made; `k` numbers transport
attempts globally so consecutive sender rounds consume fresh oracle
indices. -/
def flushLoop (events : List TelemetryEvent) (transport : Nat → Bool) (k : Nat)
    (cs : CircuitBreakerState) (now : Int) : Nat → Bool × CircuitBreakerState × Nat
  | 0 => (false, cs, 0)
  | remaining + 1 =>
    let r := deliver events cs transport k now
    if r.ok then
      (true, r.circuit, r.transportCalls)
    else
      let rest := flushLoop events transport (k + r.transportCalls) r.circuit now remaining
      (rest.1, rest.2.1, r.transportCalls + rest.2.2)

/-- EventBatcher.autoFlush (batching.ts) composed with the sender of
createSender (sending.ts): skips when a flush is in flight or the queue
is empty; otherwise snapshots and clears the queue, then retries the
sendFunction up to batcherMaxRetries times.  Returns the batcher state
after the flush, the sender's circuit state, and the total number of
transport attempts this flush caused. -/
def autoFlush (bs : BatcherState) (cs : CircuitBreakerState)
    (transport : Nat → Bool) (k : Nat) (now : Int) :
    BatcherState × CircuitBreakerState × Nat :=
  if bs.isFlushing then
    (bs, cs, 0)
  else
    let p := EventBatcher.getEvents bs
    if p.1.isEmpty then
      (p.2, cs, 0)
    else
      let r := flushLoop p.1 transport k cs now batcherMaxRetries
      (p.2, r.2.1, r.2.2)

/-- One batcher operation of the trace model: an add call or a
time/size-triggered flush snapshot. -/
inductive BatchOp where
  | add (e : TelemetryEvent)
  | flush
deriving Repr

/-- Runs a sequence of batcher operations, collecting the flush
snapshots in order (network delivery of a snapshot does not feed back
into the queue, so it is irrelevant to what the snapshots contain). -/
def runOps : BatcherState → List BatchOp → BatcherState × List (List TelemetryEvent)
  | s, [] => (s, [])
  | s, BatchOp.add e :: ops => runOps (EventBatcher.add s e) ops
  | s, BatchOp.flush :: ops =>
    let p := EventBatcher.getEvents s
    let rest := runOps p.2 ops
    (rest.1, p.1 :: rest.2)

/-- Circuit breaker states reachable in the program: the sender closure
starts from createInitialCircuitState and changes its state only
through updateCircuitState (threshold CIRCUIT_THRESHOLD, arbitrary
clock values) and through the OPEN to HALF_OPEN probe transition that
createSender performs after a passed gate check. -/
inductive CircuitReachable : CircuitBreakerState → Prop where
  | init : CircuitReachable createInitialCircuitState
  | update (s : CircuitBreakerState) (success : Bool) (now : Int) :
      CircuitReachable s →
      CircuitReachable (updateCircuitState s success CIRCUIT_THRESHOLD now)
  | probe (s : CircuitBreakerState) :
      CircuitReachable s → s.state = CircuitState.OPEN →
      CircuitReachable { s with state := CircuitState.HALF_OPEN, successCount := 0 }

/-- A concrete telemetry event used in witnesses and counterexamples. -/
def sampleEvent : TelemetryEvent :=
  { request_id := "req-1"
    service_name := "svc"
    route := "/a"
    method := "GET"
    status_code := 200
    duration_ms := 10
    timestamp := "2026-01-01T00:00:00Z" }

/-- A transport oracle on which every attempt fails. -/
def failTransport : Nat → Bool := fun _ => false

/-- Pairwise distinct request ids for counterexample traces; cid i has
i + 1 characters, so the ids are injective in i and never empty. -/
def cid (i : Nat) : String := String.mk (List.replicate (i + 1) 'a')

/-- Filler event number i for counterexample traces. -/
def fillerEvent (i : Nat) : TelemetryEvent :=
  { sampleEvent with request_id := cid i }

/-- An event whose request_id (the empty string) differs from every
cid i. -/
def dupEvent : TelemetryEvent :=
  { sampleEvent with request_id := "" }

/-- Operation sequence with the duplicated event, then n + 1 distinct
filler adds, a flush, the duplicated event again, and a final
flush. -/
def c5opsN (n : Nat) : List BatchOp :=
  BatchOp.add dupEvent ::
    (((List.range (n + 1)).map fillerEvent).map (fun e => BatchOp.add e) ++
      [BatchOp.flush, BatchOp.add dupEvent, BatchOp.flush])

/-- Operation sequence for the dedup counterexample: the duplicated
event, then 1000 distinct filler adds (enough to evict the duplicated
id from the window), a flush, the duplicated event again, and a final
flush. -/
def c5ops : List BatchOp := c5opsN 999

end AIP

namespace AutoTrace

/-- The client package's TelemetryEvent has the same fields as the
aip-client one; the embedding shares the structure. -/
abbrev TelemetryEvent := AIP.TelemetryEvent

/-- SamplingContext from the client types: the event together with the
Express request.  The request object is opaque to the sampling logic
(it is only ever forwarded to user callbacks), so the embedding keeps
just the event. -/
structure SamplingContext where
  event : TelemetryEvent

/-- RouteSamplingRule from the client types; rates are modelled as
rationals. -/
structure RouteSamplingRule where
  pattern : String
  rate : ℚ

/-- StatusSamplingRule from the client types. -/
structure StatusSamplingRule where
  statuses : Option (List Int) := none
  min : Option Int := none
  max : Option Int := none
  rate : ℚ

/-- Result type of a customSampler callback: boolean, number, or
anything else (undefined). -/
inductive CustomDecision where
  | bool (b : Bool)
  | num (r : ℚ)
  | other

/-- SamplingOptions from the client types. -/
structure SamplingOptions where
  samplingRate : Option ℚ := none
  alwaysSampleErrors : Option Bool := none
  alwaysSampleSlow : Option Int := none
  routeRules : Option (List RouteSamplingRule) := none
  statusRules : Option (List StatusSamplingRule) := none
  customSampler : Option (SamplingContext → CustomDecision) := none
  prioritySampler : Option (SamplingContext → ℚ) := none
  hashSalt : Option String := none

/-- clampRate from the client middleware.  The Number.isNaN branch has
no counterpart for rationals. -/
def clampRate (value : ℚ) : ℚ :=
  if value < 0 then 0
  else if value > 1 then 1
  else value

/-- Anchored glob matching implemented by the regex that `matches`
builds in the client middleware: every character is escaped to a
literal except `*`, which becomes `.*` (zero or more of any
character). -/
def globMatch : List Char → List Char → Bool
  | [], [] => true
  | [], _ :: _ => false
  | '*' :: ps, s =>
    globMatch ps s ||
      (match s with
        | [] => false
        | _ :: s' => globMatch ('*' :: ps) s')
  | _ :: _, [] => false
  | p :: ps, c :: s => p == c && globMatch ps s
termination_by p s => (p.length, s.length)

/-- The route matcher from the client middleware: an empty route is
falsy and never matches; a pattern containing `*` is glob-matched;
otherwise the comparison is exact equality. -/
def routeMatches (route : String) (pattern : String) : Bool :=
  if route = "" then false
  else if pattern.data.contains '*' then globMatch pattern.data route.data
  else route == pattern

/-- int32 wrap-around of JavaScript bitwise operations. -/
def toInt32 (x : Int) : Int := (x + 2 ^ 31) % 2 ^ 32 - 2 ^ 31

/-- getProbability from the client middleware: the classic shift-hash
over the input characters with int32 wrap-around at each step (both
the << 5 and the |= 0), then the unsigned reading of the hash divided
by 0xffffffff.  Character codes are taken from the Lean string's code
points; for strings that stay below U+10000 this agrees with
JavaScript's charCodeAt loop. -/
def getProbability (input : String) : ℚ :=
  let h := input.data.foldl
    (fun h c => toInt32 (toInt32 (h * 32) - h + (c.toNat : Int))) 0
  ((h % 2 ^ 32 : Int) : ℚ) / 4294967295

/-- Truthiness of an optional JS string: defined and non-empty. -/
def isTruthyStr : Option String → Bool
  | some s => !(s == "")
  | none => false

/-- Whether one StatusSamplingRule matches a status code, from
shouldSampleEvent in the client middleware: explicit status list
membership first, otherwise an inclusive numeric range when both
bounds are numbers. -/
def statusRuleMatches (rule : StatusSamplingRule) (code : Int) : Bool :=
  let m1 := match rule.statuses with
    | some l => l.contains code
    | none => false
  if m1 then true
  else
    match rule.min, rule.max with
    | some lo, some hi => decide (lo ≤ code) && decide (code ≤ hi)
    | _, _ => false

/-- The final threshold check of shouldSampleEvent (the last lines of
the function): certain keep at rate at least 1, certain drop at rate
at most 0, otherwise compare the request_id hash against the rate. -/
def finalRateCheck (event : TelemetryEvent) (hashSalt : Option String) (rate : ℚ) : Bool :=
  if rate ≥ 1 then true
  else if rate ≤ 0 then false
  else decide (getProbability (event.request_id ++ hashSalt.getD "") < rate)

/-- shouldSampleEvent from the client middleware. -/
def shouldSampleEvent (event : TelemetryEvent) (sampling : Option SamplingOptions) : Bool :=
  match sampling with
  | none => true
  | some sampling =>
    let context : SamplingContext := { event := event }
    let alwaysSampleErrors := (sampling.alwaysSampleErrors).getD true
    if alwaysSampleErrors &&
        (decide (event.status_code ≥ 400) || isTruthyStr event.error_type) then
      true
    else if (match sampling.alwaysSampleSlow with
        | some threshold => decide (event.duration_ms ≥ threshold)
        | none => false) then
      true
    else
      let rate := clampRate ((sampling.samplingRate).getD 1)
      let rate := match sampling.routeRules with
        | some rules =>
          match rules.find? (fun rule => routeMatches event.route rule.pattern) with
          | some rule => clampRate rule.rate
          | none => rate
        | none => rate
      let rate := match sampling.statusRules with
        | some rules =>
          match rules.find? (fun rule => statusRuleMatches rule event.status_code) with
          | some rule => clampRate rule.rate
          | none => rate
        | none => rate
      let rate := match sampling.prioritySampler with
        | some f =>
          let pr := f context
          if 0 < pr then clampRate (rate * pr) else rate
        | none => rate
      match sampling.customSampler with
      | some f =>
        match f context with
        | CustomDecision.bool b => b
        | CustomDecision.num r => finalRateCheck event sampling.hashSalt (clampRate r)
        | CustomDecision.other => finalRateCheck event sampling.hashSalt rate
      | none => finalRateCheck event sampling.hashSalt rate

/-- JavaScript || on strings: the left operand unless it is falsy
(empty). -/
def jsOr (a b : String) : String := if a = "" then b else a

/-- An Error value as the hook sees it. -/
structure JsError where
  name : String
  message : String

/-- The res.locals error side channel written by the companion error
handler. -/
structure ResLocals where
  errorType : Option String := none
  errorMessage : Option String := none

/-- Everything logEvent in the client middleware reads when it builds
the telemetry event: the generated request id and recorded start
instant, the configured service name, request data, the response
status, the completion instant and its ISO rendering, the caughtError
cell, and the res.locals side channel. -/
structure HookInputs where
  requestId : String
  serviceName : String
  routeTemplate : Option String
  path : String
  method : String
  statusCode : Int
  startTime : Int
  now : Int
  timestamp : String
  caughtError : Option JsError
  locals : ResLocals

/-- The TelemetryEvent construction inside logEvent of the client
middleware, including the error precedence chain: a caught synchronous
error wins, then a non-empty res.locals errorType, then a synthesized
HTTP_ERROR marker for status codes of 400 and above. -/
def buildEvent (i : HookInputs) : TelemetryEvent :=
  let base : TelemetryEvent :=
    { request_id := i.requestId
      service_name := i.serviceName
      route := jsOr ((i.routeTemplate).getD "") i.path
      method := i.method
      status_code := i.statusCode
      duration_ms := i.now - i.startTime
      timestamp := i.timestamp }
  match i.caughtError with
  | some err =>
    { base with error_type := some (jsOr err.name "Error")
                error_message := some (jsOr err.message "Unknown Error") }
  | none =>
    if isTruthyStr i.locals.errorType then
      { base with error_type := i.locals.errorType
                  error_message := some ((i.locals.errorMessage).getD "") }
    else if i.statusCode ≥ 400 then
      { base with error_type := some "HTTP_ERROR", error_message := some "" }
    else
      base

/-- Per-request mutable state of the hook closure: the hasLogged guard
and the events handed to batcher.add so far. -/
structure HookState where
  hasLogged : Bool
  batch : List TelemetryEvent

/-- logEvent from the client middleware, the completion callback
registered once on the finish signal and once on the close signal.
Returns the updated closure state together with the list of telemetry
events constructed during this call. -/
def logEvent (i : HookInputs) (sampling : Option SamplingOptions) (s : HookState) :
    HookState × List TelemetryEvent :=
  if s.hasLogged then
    (s, [])
  else
    let event := buildEvent i
    ({ hasLogged := true
       batch := s.batch ++ (if shouldSampleEvent event sampling then [event] else []) },
     [event])

/-- The scenario A event: status_code 500, no error fields. -/
def scenarioAEvent : TelemetryEvent :=
  { AIP.sampleEvent with status_code := 500 }

/-- A concrete set of hook inputs for witnesses. -/
def sampleHookInputs : HookInputs :=
  { requestId := "r1"
    serviceName := "svc"
    routeTemplate := none
    path := "/a"
    method := "GET"
    statusCode := 200
    startTime := 0
    now := 10
    timestamp := "2026-01-01T00:00:00Z"
    caughtError := none
    locals := {} }

end AutoTrace

namespace AIP

/-- C1: the circuit breaker transition function satisfies the spec's
transition table with threshold 5: five consecutive failures from the
initial CLOSED state yield OPEN; from OPEN, a gate check before the
reset window has elapsed since lastFailureTime is denied; from a
freshly entered HALF_OPEN state, three consecutive successes yield
CLOSED with failureCount 0; a single failure in HALF_OPEN yields
OPEN. -/
theorem circuit_breaker_transition_table
    (t1 t2 t3 t4 t5 : Int) (fc fc2 sc : Nat) (lft lft2 : Option Int)
    (tf now n1 n2 n3 : Int) (h : now - tf < CIRCUIT_RESET_MS) :
    (List.foldl (fun s t => updateCircuitState s false CIRCUIT_THRESHOLD t)
        createInitialCircuitState [t1, t2, t3, t4, t5]).state = CircuitState.OPEN
    ∧ shouldAllowRequest
        { state := CircuitState.OPEN, failureCount := fc,
          lastFailureTime := some tf, successCount := sc }
        CIRCUIT_RESET_MS now = false
    ∧ updateCircuitState
        (updateCircuitState
          (updateCircuitState
            { state := CircuitState.HALF_OPEN, failureCount := fc,
              lastFailureTime := lft, successCount := 0 }
            true CIRCUIT_THRESHOLD n1)
          true CIRCUIT_THRESHOLD n2)
        true CIRCUIT_THRESHOLD n3 = createInitialCircuitState
    ∧ (updateCircuitState
        { state := CircuitState.HALF_OPEN, failureCount := fc2,
          lastFailureTime := lft2, successCount := sc }
        false CIRCUIT_THRESHOLD now).state = CircuitState.OPEN := by
  refine ⟨?_, ?_, ?_, ?_⟩
  · simp [updateCircuitState, createInitialCircuitState, CIRCUIT_THRESHOLD]
  · simp only [shouldAllowRequest, CIRCUIT_RESET_MS] at *
    simp
    omega
  · simp [updateCircuitState, createInitialCircuitState]
  · simp [updateCircuitState]

/-- Witness for C1 at concrete inputs. -/
theorem circuit_breaker_transition_table_witness :
    (0 : Int) - 0 < CIRCUIT_RESET_MS
    ∧ ((List.foldl (fun s t => updateCircuitState s false CIRCUIT_THRESHOLD t)
        createInitialCircuitState [1, 2, 3, 4, 5]).state = CircuitState.OPEN
    ∧ shouldAllowRequest
        { state := CircuitState.OPEN, failureCount := 5,
          lastFailureTime := some 0, successCount := 0 }
        CIRCUIT_RESET_MS 0 = false
    ∧ updateCircuitState
        (updateCircuitState
          (updateCircuitState
            { state := CircuitState.HALF_OPEN, failureCount := 5,
              lastFailureTime := some 0, successCount := 0 }
            true CIRCUIT_THRESHOLD 6)
          true CIRCUIT_THRESHOLD 7)
        true CIRCUIT_THRESHOLD 8 = createInitialCircuitState
    ∧ (updateCircuitState
        { state := CircuitState.HALF_OPEN, failureCount := 0,
          lastFailureTime := some 0, successCount := 0 }
        false CIRCUIT_THRESHOLD 0).state = CircuitState.OPEN) :=
  ⟨by decide,
   circuit_breaker_transition_table 1 2 3 4 5 5 0 0 (some 0) (some 0) 0 0 6 7 8 (by decide)⟩

/-- C6: when the circuit breaker gate denies an attempt on a nonempty
batch, the sender returns false immediately, makes no transport call,
and leaves the breaker state unchanged. -/
theorem circuit_open_fast_fail (events : List TelemetryEvent)
    (cs : CircuitBreakerState) (transport : Nat → Bool) (k0 : Nat) (now : Int)
    (hne : events ≠ [])
    (hdeny : shouldAllowRequest cs CIRCUIT_RESET_MS now = false) :
    deliver events cs transport k0 now =
      { ok := false, circuit := cs, transportCalls := 0, circuitUpdates := [] } := by
  cases events with
  | nil => exact absurd rfl hne
  | cons e es => simp [deliver, hdeny]

/-- Witness for C6: a breaker opened at time 0 denies an attempt at
time 1 and the sender fast-fails without touching transport or
state. -/
theorem circuit_open_fast_fail_witness :
    (([sampleEvent] : List TelemetryEvent) ≠ []
      ∧ shouldAllowRequest
          { state := CircuitState.OPEN, failureCount := 5,
            lastFailureTime := some 0, successCount := 0 }
          CIRCUIT_RESET_MS 1 = false)
    ∧ deliver [sampleEvent]
        { state := CircuitState.OPEN, failureCount := 5,
          lastFailureTime := some 0, successCount := 0 }
        failTransport 0 1 =
      { ok := false
        circuit := { state := CircuitState.OPEN, failureCount := 5,
                     lastFailureTime := some 0, successCount := 0 }
        transportCalls := 0
        circuitUpdates := [] } :=
  ⟨⟨by decide, by decide⟩,
   circuit_open_fast_fail _ _ failTransport 0 1 (by decide) (by decide)⟩

/-- Every round of the sender's retry loop passes exactly one flag to
updateCircuitState, and that flag equals the round's boolean result. -/
theorem deliverLoop_updates (transport : Nat → Bool) (threshold : Nat) (now : Int)
    (n : Nat) : ∀ (k0 : Nat) (cs : CircuitBreakerState),
      (deliverLoop transport k0 cs threshold now n).circuitUpdates =
        [(deliverLoop transport k0 cs threshold now n).ok] := by
  induction n with
  | zero => intro k0 cs; rfl
  | succ n ih =>
    intro k0 cs
    by_cases h : transport k0 = true
    · simp [deliverLoop, h]
    · simp only [Bool.not_eq_true] at h
      simp [deliverLoop, h, ih (k0 + 1) cs]

/-- C3 counterexample: on a round whose first transport attempt fails
and whose second succeeds, the circuit breaker receives the single
update list [true], not the per-attempt list [false, true] the claim
describes. -/
theorem per_attempt_circuit_feed_counterexample :
    (deliver [sampleEvent] createInitialCircuitState (fun k => k != 0) 0 0).circuitUpdates
      = [true]
    ∧ (deliver [sampleEvent] createInitialCircuitState (fun k => k != 0) 0 0).circuitUpdates
      ≠ [false, true] := by
  exact ⟨rfl, by decide⟩

/-- C3 amended: the sender feeds the circuit breaker exactly one
success/failure update per delivery round (not one per attempt), and
that update equals the round's overall outcome. -/
theorem one_circuit_update_per_round (events : List TelemetryEvent)
    (cs : CircuitBreakerState) (transport : Nat → Bool) (k0 : Nat) (now : Int)
    (hne : events ≠ [])
    (hallow : shouldAllowRequest cs CIRCUIT_RESET_MS now = true) :
    (deliver events cs transport k0 now).circuitUpdates =
      [(deliver events cs transport k0 now).ok] := by
  cases events with
  | nil => exact absurd rfl hne
  | cons e es => simp [deliver, hallow, deliverLoop_updates]

/-- Witness for the amended C3 at a concrete failing round. -/
theorem one_circuit_update_per_round_witness :
    (([sampleEvent] : List TelemetryEvent) ≠ []
      ∧ shouldAllowRequest createInitialCircuitState CIRCUIT_RESET_MS 0 = true)
    ∧ (deliver [sampleEvent] createInitialCircuitState failTransport 0 0).circuitUpdates =
        [(deliver [sampleEvent] createInitialCircuitState failTransport 0 0).ok] :=
  ⟨⟨by decide, by decide⟩,
   one_circuit_update_per_round _ _ failTransport 0 0 (by decide) (by decide)⟩

/-- C2 counterexample: a flush whose transport attempts all fail makes
9 transport attempts in total (3 sender rounds of 3 attempts each,
driven by the batcher's own retry loop), so a 4th attempt is made. -/
theorem no_fourth_attempt_counterexample :
    (autoFlush { queue := [sampleEvent], recentRequestIds := [], isFlushing := false }
        createInitialCircuitState failTransport 0 0).2.2 = 9
    ∧ ¬ ((autoFlush { queue := [sampleEvent], recentRequestIds := [], isFlushing := false }
        createInitialCircuitState failTransport 0 0).2.2 ≤ 3) := by
  exact ⟨rfl, by decide⟩

/-- C2 amended: when every transport attempt fails, one sender round
returns false after exactly maxRetries = 3 transport attempts (the
sender itself makes no 4th attempt and records one failure update),
but the batcher retries the sender up to 3 times for the same flush,
so the flush as a whole makes 9 transport attempts. -/
theorem flush_transport_attempts (e : TelemetryEvent) (es : List TelemetryEvent)
    (ids : List String) (k0 : Nat) (now : Int) :
    deliver (e :: es) createInitialCircuitState failTransport k0 now =
      { ok := false
        circuit := { state := CircuitState.CLOSED, failureCount := 1,
                     lastFailureTime := some now, successCount := 0 }
        transportCalls := 3
        circuitUpdates := [false] }
    ∧ (autoFlush { queue := e :: es, recentRequestIds := ids, isFlushing := false }
        createInitialCircuitState failTransport k0 now).2.2 = 9 :=
  ⟨rfl, rfl⟩

/-- The dedup-window membership test of add, restated through
propositional membership. -/
theorem contains_eq_decide_mem (l : List String) (a : String) :
    l.contains a = decide (a ∈ l) :=
  List.elem_eq_mem a l

/-- add on an event whose id sits in the dedup window is a no-op. -/
theorem add_of_mem (s : BatcherState) (e : TelemetryEvent)
    (h : e.request_id ∈ s.recentRequestIds) :
    EventBatcher.add s e = s := by
  simp [EventBatcher.add, contains_eq_decide_mem, h]

/-- add on a fresh id appends the event to the queue, whatever the
dedup window does. -/
theorem add_queue_of_fresh (s : BatcherState) (e : TelemetryEvent)
    (h : e.request_id ∉ s.recentRequestIds) :
    (EventBatcher.add s e).queue = s.queue ++ [e] := by
  have hc : s.recentRequestIds.contains e.request_id = false := by
    simp [contains_eq_decide_mem, h]
  simp only [EventBatcher.add, hc, Bool.false_eq_true, if_false]
  split <;> rfl

/-- After any add the added id is in the dedup window. -/
theorem add_mem_window (s : BatcherState) (e : TelemetryEvent) :
    e.request_id ∈ (EventBatcher.add s e).recentRequestIds := by
  by_cases h : e.request_id ∈ s.recentRequestIds
  · rw [add_of_mem s e h]; exact h
  · have hc : s.recentRequestIds.contains e.request_id = false := by
      simp [contains_eq_decide_mem, h]
    simp only [EventBatcher.add, hc, Bool.false_eq_true, if_false]
    split
    · next h1 =>
      cases hids : s.recentRequestIds with
      | nil => rw [hids] at h1; simp [maxDedupeSize] at h1
      | cons a as => simp [hids]
    · simp

/-- add on a fresh id with a full dedup window drops the oldest id (the
head of the insertion-ordered window) and appends the new one. -/
theorem add_evicts (s : BatcherState) (e : TelemetryEvent)
    (hfull : s.recentRequestIds.length = maxDedupeSize)
    (hfresh : e.request_id ∉ s.recentRequestIds) :
    EventBatcher.add s e =
      { queue := s.queue ++ [e]
        recentRequestIds := s.recentRequestIds.drop 1 ++ [e.request_id]
        isFlushing := s.isFlushing } := by
  have hc : s.recentRequestIds.contains e.request_id = false := by
    simp [contains_eq_decide_mem, hfresh]
  have hlen : (s.recentRequestIds ++ [e.request_id]).length > maxDedupeSize := by
    simp [hfull]
  simp only [EventBatcher.add, hc, Bool.false_eq_true, if_false]
  rw [if_pos hlen]
  cases hids : s.recentRequestIds with
  | nil => rw [hids] at hfull; simp [maxDedupeSize] at hfull
  | cons a as => simp [hids]

/-- add on a fresh id with room in the dedup window appends to both the
queue and the window. -/
theorem add_fresh_no_evict (s : BatcherState) (e : TelemetryEvent)
    (hroom : s.recentRequestIds.length < maxDedupeSize)
    (hfresh : e.request_id ∉ s.recentRequestIds) :
    EventBatcher.add s e =
      { queue := s.queue ++ [e]
        recentRequestIds := s.recentRequestIds ++ [e.request_id]
        isFlushing := s.isFlushing } := by
  have hc : s.recentRequestIds.contains e.request_id = false := by
    simp [contains_eq_decide_mem, hfresh]
  simp only [EventBatcher.add, hc, Bool.false_eq_true, if_false]
  rw [if_neg (by simp; omega)]

/-- getEvents never touches the dedup window. -/
theorem getEvents_window (s : BatcherState) :
    (EventBatcher.getEvents s).2.recentRequestIds = s.recentRequestIds := by
  unfold EventBatcher.getEvents
  split <;> rfl

/-- A flush snapshot is the whole queue. -/
theorem getEvents_fst (s : BatcherState) :
    (EventBatcher.getEvents s).1 = s.queue := by
  unfold EventBatcher.getEvents
  split
  · next h1 => simp only [List.isEmpty_iff] at h1; rw [h1]
  · rfl

/-- getEvents leaves an empty queue behind. -/
theorem getEvents_clears (s : BatcherState) :
    (EventBatcher.getEvents s).2.queue = [] := by
  unfold EventBatcher.getEvents
  split
  · next h1 => simpa [List.isEmpty_iff] using h1
  · rfl

/-- add keeps the dedup window within its bound. -/
theorem add_window_le (s : BatcherState) (e : TelemetryEvent)
    (h : s.recentRequestIds.length ≤ maxDedupeSize) :
    (EventBatcher.add s e).recentRequestIds.length ≤ maxDedupeSize := by
  by_cases hmem : e.request_id ∈ s.recentRequestIds
  · rw [add_of_mem s e hmem]; exact h
  · by_cases hlen : s.recentRequestIds.length < maxDedupeSize
    · rw [add_fresh_no_evict s e hlen hmem]
      change (s.recentRequestIds ++ [e.request_id]).length ≤ maxDedupeSize
      simp only [maxDedupeSize] at hlen ⊢
      simp only [List.length_append, List.length_cons, List.length_nil]
      omega
    · have hfull : s.recentRequestIds.length = maxDedupeSize := by omega
      rw [add_evicts s e hfull hmem]
      change (s.recentRequestIds.drop 1 ++ [e.request_id]).length ≤ maxDedupeSize
      simp only [maxDedupeSize] at hfull ⊢
      simp only [List.length_append, List.length_drop, List.length_cons, List.length_nil]
      omega

/-- The dedup window stays within its bound along any operation
sequence. -/
theorem runOps_window_le (ops : List BatchOp) :
    ∀ s : BatcherState, s.recentRequestIds.length ≤ maxDedupeSize →
      (runOps s ops).1.recentRequestIds.length ≤ maxDedupeSize := by
  induction ops with
  | nil => intro s h; exact h
  | cons op ops ih =>
    intro s h
    cases op with
    | add e => exact ih _ (add_window_le s e h)
    | flush =>
      simp only [runOps]
      exact ih _ (by rw [getEvents_window]; exact h)

/-- C4: a flush snapshot is exactly the queued sequence, the queue is
cleared before any network send and the dedup window is untouched; an
event not yet queued is absent from that snapshot, and once added
after the snapshot it makes up the next snapshot. -/
theorem flush_snapshot_atomicity (s : BatcherState) (e : TelemetryEvent)
    (hq : e ∉ s.queue)
    (hid : e.request_id ∉ s.recentRequestIds) :
    (EventBatcher.getEvents s).1 = s.queue
    ∧ (EventBatcher.getEvents s).2.queue = []
    ∧ (EventBatcher.getEvents s).2.recentRequestIds = s.recentRequestIds
    ∧ e ∉ (EventBatcher.getEvents s).1
    ∧ (EventBatcher.getEvents
        (EventBatcher.add (EventBatcher.getEvents s).2 e)).1 = [e] := by
  have hwin : e.request_id ∉ (EventBatcher.getEvents s).2.recentRequestIds := by
    rw [getEvents_window]; exact hid
  refine ⟨getEvents_fst s, getEvents_clears s, getEvents_window s,
    by rw [getEvents_fst]; exact hq, ?_⟩
  rw [getEvents_fst, add_queue_of_fresh _ e hwin, getEvents_clears]
  rfl

/-- Witness for C4 on the freshly constructed batcher. -/
theorem flush_snapshot_atomicity_witness :
    (sampleEvent ∉ initialBatcherState.queue
      ∧ sampleEvent.request_id ∉ initialBatcherState.recentRequestIds)
    ∧ ((EventBatcher.getEvents initialBatcherState).1 = initialBatcherState.queue
      ∧ (EventBatcher.getEvents initialBatcherState).2.queue = []
      ∧ (EventBatcher.getEvents initialBatcherState).2.recentRequestIds =
          initialBatcherState.recentRequestIds
      ∧ sampleEvent ∉ (EventBatcher.getEvents initialBatcherState).1
      ∧ (EventBatcher.getEvents
          (EventBatcher.add (EventBatcher.getEvents initialBatcherState).2 sampleEvent)).1
        = [sampleEvent]) :=
  ⟨⟨by simp [initialBatcherState], by simp [initialBatcherState]⟩,
   flush_snapshot_atomicity initialBatcherState sampleEvent
     (by simp [initialBatcherState]) (by simp [initialBatcherState])⟩

/-- C5 amended: a repeated add with the same request_id is silently
dropped and leaves the whole batcher state, in particular the queue,
unchanged, as long as the id still sits in the dedup window (which it
always does right after the first add); the unamended claim fails once
1000 fresh ids have evicted the original id from the window. -/
theorem dedup_drops_repeated_add (s : BatcherState) (e e' : TelemetryEvent)
    (hid : e'.request_id = e.request_id) :
    EventBatcher.add (EventBatcher.add s e) e' = EventBatcher.add s e :=
  add_of_mem _ e' (by rw [hid]; exact add_mem_window s e)

/-- Witness for the amended C5: a doubled add of the same event on the
fresh batcher. -/
theorem dedup_drops_repeated_add_witness :
    sampleEvent.request_id = sampleEvent.request_id
    ∧ EventBatcher.add (EventBatcher.add initialBatcherState sampleEvent) sampleEvent
      = EventBatcher.add initialBatcherState sampleEvent :=
  ⟨rfl, dedup_drops_repeated_add initialBatcherState sampleEvent sampleEvent rfl⟩

/-- C9: the dedup window holds at most 1000 ids after any operation
sequence from construction; eviction on overflow removes the
oldest-inserted id (the head of the insertion-ordered window); and a
flush never removes ids from the window. -/
theorem dedup_window_bounds (ops : List BatchOp) (s s' : BatcherState)
    (e : TelemetryEvent)
    (hfull : s.recentRequestIds.length = maxDedupeSize)
    (hfresh : e.request_id ∉ s.recentRequestIds) :
    (runOps initialBatcherState ops).1.recentRequestIds.length ≤ maxDedupeSize
    ∧ (EventBatcher.add s e).recentRequestIds =
        s.recentRequestIds.drop 1 ++ [e.request_id]
    ∧ (EventBatcher.getEvents s').2.recentRequestIds = s'.recentRequestIds :=
  ⟨runOps_window_le ops initialBatcherState (by simp [initialBatcherState]),
   by rw [add_evicts s e hfull hfresh],
   getEvents_window s'⟩

/-- cid never produces the empty string. -/
theorem cid_ne_empty (i : Nat) : cid i ≠ "" := by
  intro h
  have h2 := congrArg String.data h
  simp [cid] at h2

/-- cid is injective. -/
theorem cid_injective : Function.Injective cid := by
  intro i j h
  have h2 := congrArg (fun s => s.data.length) h
  simpa [cid] using h2

/-- The id of a filler event is never the duplicated (empty) id. -/
theorem cid_beq_empty (i : Nat) : (cid i == "") = false := by
  simpa using cid_ne_empty i

/-- The duplicated id is outside any block of filler ids. -/
theorem empty_not_mem_map_cid (n : Nat) : ("" : String) ∉ (List.range n).map cid := by
  intro h
  obtain ⟨j, _, hj⟩ := List.mem_map.mp h
  exact cid_ne_empty j hj

/-- A filler id is fresh for any earlier block of filler ids. -/
theorem cid_not_mem_map_cid (k n : Nat) (h : n ≤ k) :
    cid k ∉ (List.range n).map cid := by
  intro hmem
  obtain ⟨j, hj, heq⟩ := List.mem_map.mp hmem
  have hjk := cid_injective heq
  subst hjk
  exact absurd (List.mem_range.mp hj) (by omega)

/-- The duplicated id with a block of filler ids forms a
duplicate-free window. -/
theorem nodup_empty_cons_map_cid (n : Nat) :
    (("" : String) :: (List.range n).map cid).Nodup :=
  List.nodup_cons.mpr ⟨empty_not_mem_map_cid n, (List.nodup_range n).map cid_injective⟩

set_option maxRecDepth 8000 in
/-- Witness for C9 at a full window of 1000 distinct ids. -/
theorem dedup_window_bounds_witness :
    ((((List.range 1000).map cid : List String).length = maxDedupeSize
      ∧ dupEvent.request_id ∉ ((List.range 1000).map cid : List String))
    ∧ ((runOps initialBatcherState [BatchOp.flush]).1.recentRequestIds.length ≤ maxDedupeSize
      ∧ (EventBatcher.add
            { queue := [], recentRequestIds := (List.range 1000).map cid, isFlushing := false }
            dupEvent).recentRequestIds =
          ((List.range 1000).map cid : List String).drop 1 ++ [dupEvent.request_id]
      ∧ (EventBatcher.getEvents initialBatcherState).2.recentRequestIds =
          initialBatcherState.recentRequestIds)) :=
  ⟨⟨by rw [List.length_map, List.length_range]; rfl, by
      intro hmem
      obtain ⟨j, _, hj⟩ := List.mem_map.mp hmem
      exact cid_ne_empty j hj⟩,
   dedup_window_bounds [BatchOp.flush]
     { queue := [], recentRequestIds := (List.range 1000).map cid, isFlushing := false }
     initialBatcherState dupEvent
     (by
      show ((List.range 1000).map cid : List String).length = maxDedupeSize
      rw [List.length_map, List.length_range]
      rfl)
     (by
      intro hmem
      obtain ⟨j, _, hj⟩ := List.mem_map.mp hmem
      exact cid_ne_empty j hj)⟩

/-- C10: every circuit breaker state reachable from the initial state
through updateCircuitState and the sender's probe transition has
successCount 0 while CLOSED, and a non-null lastFailureTime while OPEN
or HALF_OPEN (making the null-lastFailureTime branch of
shouldAllowRequest for OPEN unreachable). -/
theorem circuit_reachable_invariant (s : CircuitBreakerState)
    (h : CircuitReachable s) :
    (s.state = CircuitState.CLOSED → s.successCount = 0)
    ∧ (s.state ≠ CircuitState.CLOSED → s.lastFailureTime ≠ none) := by
  induction h with
  | init => exact ⟨fun _ => rfl, fun hc => absurd rfl hc⟩
  | update s success now hr ih =>
    obtain ⟨st, fc, lft, sc⟩ := s
    obtain ⟨ih1, ih2⟩ := ih
    cases success with
    | true =>
      cases st with
      | CLOSED =>
        rw [show updateCircuitState ⟨CircuitState.CLOSED, fc, lft, sc⟩ true CIRCUIT_THRESHOLD now
            = ⟨CircuitState.CLOSED, 0, lft, sc⟩ from by simp [updateCircuitState]]
        exact ⟨fun _ => ih1 rfl, fun hc => absurd rfl hc⟩
      | OPEN =>
        rw [show updateCircuitState ⟨CircuitState.OPEN, fc, lft, sc⟩ true CIRCUIT_THRESHOLD now
            = ⟨CircuitState.OPEN, fc, lft, sc⟩ from by simp [updateCircuitState]]
        exact ⟨fun hc => (nomatch hc), fun _ => ih2 (fun hcl => (nomatch hcl))⟩
      | HALF_OPEN =>
        by_cases h3 : sc + 1 ≥ 3
        · rw [show updateCircuitState ⟨CircuitState.HALF_OPEN, fc, lft, sc⟩ true CIRCUIT_THRESHOLD now
              = createInitialCircuitState from by simp [updateCircuitState, h3]]
          exact ⟨fun _ => rfl, fun hc => absurd rfl hc⟩
        · rw [show updateCircuitState ⟨CircuitState.HALF_OPEN, fc, lft, sc⟩ true CIRCUIT_THRESHOLD now
              = ⟨CircuitState.HALF_OPEN, fc, lft, sc + 1⟩ from by simp [updateCircuitState, h3]]
          exact ⟨fun hc => (nomatch hc), fun _ => ih2 (fun hcl => (nomatch hcl))⟩
    | false =>
      cases st with
      | CLOSED =>
        by_cases h5 : fc + 1 ≥ CIRCUIT_THRESHOLD
        · rw [show updateCircuitState ⟨CircuitState.CLOSED, fc, lft, sc⟩ false CIRCUIT_THRESHOLD now
              = ⟨CircuitState.OPEN, fc + 1, some now, 0⟩ from by simp [updateCircuitState, h5]]
          exact ⟨fun hc => (nomatch hc), fun _ => by simp⟩
        · rw [show updateCircuitState ⟨CircuitState.CLOSED, fc, lft, sc⟩ false CIRCUIT_THRESHOLD now
              = ⟨CircuitState.CLOSED, fc + 1, some now, sc⟩ from by simp [updateCircuitState, h5]]
          exact ⟨fun _ => ih1 rfl, fun hc => absurd rfl hc⟩
      | OPEN =>
        rw [show updateCircuitState ⟨CircuitState.OPEN, fc, lft, sc⟩ false CIRCUIT_THRESHOLD now
            = ⟨CircuitState.OPEN, fc, some now, sc⟩ from by simp [updateCircuitState]]
        exact ⟨fun hc => (nomatch hc), fun _ => by simp⟩
      | HALF_OPEN =>
        rw [show updateCircuitState ⟨CircuitState.HALF_OPEN, fc, lft, sc⟩ false CIRCUIT_THRESHOLD now
            = ⟨CircuitState.OPEN, fc + 1, some now, 0⟩ from by simp [updateCircuitState]]
        exact ⟨fun hc => (nomatch hc), fun _ => by simp⟩
  | probe s hr hopen ih =>
    obtain ⟨st, fc, lft, sc⟩ := s
    obtain ⟨ih1, ih2⟩ := ih
    have hst : st = CircuitState.OPEN := hopen
    subst hst
    exact ⟨fun hc => (nomatch hc), fun _ => ih2 (fun hcl => (nomatch hcl))⟩

/-- Witness for C10 at the state reached by one failure update. -/
theorem circuit_reachable_invariant_witness :
    CircuitReachable (updateCircuitState createInitialCircuitState false CIRCUIT_THRESHOLD 7)
    ∧ (((updateCircuitState createInitialCircuitState false CIRCUIT_THRESHOLD 7).state =
          CircuitState.CLOSED →
        (updateCircuitState createInitialCircuitState false CIRCUIT_THRESHOLD 7).successCount = 0)
      ∧ ((updateCircuitState createInitialCircuitState false CIRCUIT_THRESHOLD 7).state ≠
          CircuitState.CLOSED →
        (updateCircuitState createInitialCircuitState false CIRCUIT_THRESHOLD 7).lastFailureTime ≠
          none)) :=
  ⟨CircuitReachable.update _ false 7 CircuitReachable.init,
   circuit_reachable_invariant _ (CircuitReachable.update _ false 7 CircuitReachable.init)⟩

/-- runOps distributes over appended operation lists; snapshots
concatenate in order. -/
theorem runOps_append (l1 l2 : List BatchOp) :
    ∀ s : BatcherState,
      runOps s (l1 ++ l2) =
        ((runOps (runOps s l1).1 l2).1,
          (runOps s l1).2 ++ (runOps (runOps s l1).1 l2).2) := by
  induction l1 with
  | nil => intro s; simp [runOps]
  | cons op l1 ih =>
    intro s
    cases op with
    | add e => simpa [runOps] using ih (EventBatcher.add s e)
    | flush => simp [runOps, ih]

/-- A block of adds produces no snapshot and folds add over the
state. -/
theorem runOps_adds (es : List TelemetryEvent) :
    ∀ s : BatcherState,
      runOps s (es.map (fun e => BatchOp.add e)) =
        (List.foldl EventBatcher.add s es, []) := by
  induction es with
  | nil => intro s; rfl
  | cons e es ih => intro s; simpa [runOps] using ih (EventBatcher.add s e)

/-- Folding add over fresh, pairwise-distinct events that fit in the
dedup window appends them all to the queue and their ids to the
window. -/
theorem foldl_add_fresh (es : List TelemetryEvent) :
    ∀ s : BatcherState,
      s.recentRequestIds.length + es.length ≤ maxDedupeSize →
      (s.recentRequestIds ++ es.map (fun e => e.request_id)).Nodup →
      List.foldl EventBatcher.add s es =
        { queue := s.queue ++ es
          recentRequestIds := s.recentRequestIds ++ es.map (fun e => e.request_id)
          isFlushing := s.isFlushing } := by
  induction es with
  | nil => intro s _ _; simp
  | cons e es ih =>
    intro s hlen hnd
    have hnd1 : (s.recentRequestIds ++
        (e.request_id :: es.map (fun e => e.request_id))).Nodup := by
      simpa using hnd
    have hdisj := (List.nodup_append.mp hnd1).2.2
    have hfresh : e.request_id ∉ s.recentRequestIds :=
      fun hmem => hdisj hmem (List.mem_cons_self _ _)
    have hlen1 : s.recentRequestIds.length + es.length + 1 ≤ maxDedupeSize := by
      simp only [List.length_cons] at hlen
      omega
    have hroom : s.recentRequestIds.length < maxDedupeSize := by omega
    rw [List.foldl_cons, add_fresh_no_evict s e hroom hfresh]
    rw [ih { queue := s.queue ++ [e],
             recentRequestIds := s.recentRequestIds ++ [e.request_id],
             isFlushing := s.isFlushing }
        (by simp only [List.length_append, List.length_cons, List.length_nil]; omega)
        (by simpa using hnd1)]
    simp

/-- Running the duplicated-id scenario generically: with n + 1 filler
events between the two adds of the duplicated event, where n + 1 is
the dedup bound, the two flush snapshots are the full first batch and
the re-added duplicated event. -/
theorem c5_scenario (n : Nat) (hn : n + 1 = maxDedupeSize) :
    (runOps initialBatcherState (c5opsN n)).2 =
      [dupEvent :: (List.range (n + 1)).map fillerEvent, [dupEvent]] := by
  have hdupid : dupEvent.request_id = "" := rfl
  have hreq : (fun e => TelemetryEvent.request_id e) ∘ fillerEvent = cid := by
    funext j
    rfl
  have hs1 : EventBatcher.add initialBatcherState dupEvent =
      { queue := [dupEvent], recentRequestIds := [""], isFlushing := false } := by
    rw [add_fresh_no_evict initialBatcherState dupEvent
      (by simp [initialBatcherState]; omega) (by simp [initialBatcherState])]
    simp [initialBatcherState, hdupid]
  have hbulk : List.foldl EventBatcher.add
      { queue := [dupEvent], recentRequestIds := [""], isFlushing := false }
      ((List.range n).map fillerEvent) =
      { queue := dupEvent :: (List.range n).map fillerEvent
        recentRequestIds := "" :: (List.range n).map cid
        isFlushing := false } := by
    rw [foldl_add_fresh ((List.range n).map fillerEvent)
      { queue := [dupEvent], recentRequestIds := [""], isFlushing := false }
      (by simp; omega)
      (by simp only [List.map_map, hreq]; simpa using nodup_empty_cons_map_cid n)]
    simp only [List.map_map, hreq]
    simp
  have hstep : EventBatcher.add
      { queue := dupEvent :: (List.range n).map fillerEvent
        recentRequestIds := "" :: (List.range n).map cid
        isFlushing := false }
      (fillerEvent n) =
      { queue := dupEvent :: (List.range (n + 1)).map fillerEvent
        recentRequestIds := (List.range (n + 1)).map cid
        isFlushing := false } := by
    rw [add_evicts _ (fillerEvent n)
      (by simp; omega)
      (by
        simp only [List.mem_cons, not_or]
        exact ⟨cid_ne_empty n, cid_not_mem_map_cid n n le_rfl⟩)]
    rw [List.range_succ]
    simp [fillerEvent]
  have hrsucc : (List.range (n + 1)).map fillerEvent =
      (List.range n).map fillerEvent ++ [fillerEvent n] := by
    rw [List.range_succ, List.map_append]
    rfl
  have hfold : List.foldl EventBatcher.add
      { queue := [dupEvent], recentRequestIds := [""], isFlushing := false }
      ((List.range (n + 1)).map fillerEvent) =
      { queue := dupEvent :: (List.range (n + 1)).map fillerEvent
        recentRequestIds := (List.range (n + 1)).map cid
        isFlushing := false } := by
    conv in List.foldl _ _ _ => rw [hrsucc]
    rw [List.foldl_append, hbulk]
    rw [show List.foldl EventBatcher.add
        { queue := dupEvent :: (List.range n).map fillerEvent
          recentRequestIds := "" :: (List.range n).map cid
          isFlushing := false } [fillerEvent n] =
        EventBatcher.add
          { queue := dupEvent :: (List.range n).map fillerEvent
            recentRequestIds := "" :: (List.range n).map cid
            isFlushing := false } (fillerEvent n) from rfl]
    rw [hstep]
  have hrun1 : runOps initialBatcherState (c5opsN n) =
      runOps { queue := dupEvent :: (List.range (n + 1)).map fillerEvent
               recentRequestIds := (List.range (n + 1)).map cid
               isFlushing := false }
        [BatchOp.flush, BatchOp.add dupEvent, BatchOp.flush] := by
    show runOps (EventBatcher.add initialBatcherState dupEvent) _ = _
    rw [hs1, runOps_append, runOps_adds, hfold]
    simp
  have hflush1 : EventBatcher.getEvents
      { queue := dupEvent :: (List.range (n + 1)).map fillerEvent
        recentRequestIds := (List.range (n + 1)).map cid
        isFlushing := false } =
      (dupEvent :: (List.range (n + 1)).map fillerEvent,
        { queue := []
          recentRequestIds := (List.range (n + 1)).map cid
          isFlushing := false }) := by
    unfold EventBatcher.getEvents
    simp
  have htail : ∀ s : BatcherState,
      (runOps s [BatchOp.flush, BatchOp.add dupEvent, BatchOp.flush]).2 =
        [s.queue, (EventBatcher.add (EventBatcher.getEvents s).2 dupEvent).queue] := by
    intro s
    simp only [runOps]
    rw [getEvents_fst, getEvents_fst]
  rw [hrun1, htail, hflush1]
  rw [add_queue_of_fresh
    { queue := []
      recentRequestIds := (List.range (n + 1)).map cid
      isFlushing := false } dupEvent
    (by rw [hdupid]; exact empty_not_mem_map_cid (n + 1))]
  simp

/-- C5 counterexample: in the operation sequence c5ops the event with
the duplicated request_id is added twice around 1000 distinct fillers;
the two flush snapshots together contain the duplicated id twice, so
the claim's bound of at most one across all snapshots fails. -/
theorem dedup_across_flushes_counterexample :
    ((runOps initialBatcherState c5ops).2.map
        (fun snap => snap.countP (fun ev => ev.request_id == dupEvent.request_id))).sum = 2
    ∧ ¬ (((runOps initialBatcherState c5ops).2.map
        (fun snap => snap.countP (fun ev => ev.request_id == dupEvent.request_id))).sum ≤ 1) := by
  have hdupid : dupEvent.request_id = "" := rfl
  have h := c5_scenario 999 rfl
  have hops : c5ops = c5opsN 999 := rfl
  rw [hops, h]
  have hcount0 : ((List.range (999 + 1)).map fillerEvent).countP
      (fun ev => ev.request_id == dupEvent.request_id) = 0 := by
    rw [List.countP_eq_zero]
    intro a ha
    obtain ⟨j, _, hj⟩ := List.mem_map.mp ha
    subst hj
    simp [fillerEvent, hdupid, cid_beq_empty]
  constructor
  · simp [List.countP_cons, hcount0, hdupid, fillerEvent, cid_ne_empty]
  · simp [List.countP_cons, hcount0, hdupid, fillerEvent, cid_ne_empty]

end AIP

namespace AutoTrace

/-- The final rate check refuses at rate 0. -/
theorem finalRateCheck_zero (e : TelemetryEvent) (salt : Option String) :
    finalRateCheck e salt 0 = false := by
  simp [finalRateCheck]

/-- C7: under samplingRate 0 with no route rules, status rules or
callbacks, shouldSampleEvent keeps exactly the events covered by an
always-sample override: alwaysSampleErrors in effect (its default is
enabled) together with status_code at least 400 or a non-empty
error_type, or a configured alwaysSampleSlow threshold not exceeding
duration_ms; every other event is dropped.  In particular the
scenario-A event with status_code 500 is sampled in at rate 0. -/
theorem sampling_rate_zero_only_overrides (e : TelemetryEvent) (aE : Option Bool)
    (slow : Option Int) (salt : Option String) :
    (shouldSampleEvent e
        (some { samplingRate := some 0, alwaysSampleErrors := aE,
                alwaysSampleSlow := slow, hashSalt := salt }) = true
      ↔ ((aE.getD true = true ∧ (400 ≤ e.status_code ∨ isTruthyStr e.error_type = true))
        ∨ (∃ t, slow = some t ∧ t ≤ e.duration_ms)))
    ∧ shouldSampleEvent scenarioAEvent (some { samplingRate := some 0 }) = true := by
  constructor
  · cases aE <;> cases slow <;>
      simp [shouldSampleEvent, finalRateCheck, clampRate, decide_eq_true_iff, ge_iff_le] <;>
      norm_num
  · rfl

/-- C8: when both the finish and the close signal invoke the
registered completion callback, the hasLogged guard makes the second
invocation a no-op: exactly one TelemetryEvent is constructed across
the two calls, the batcher receives it exactly when it passes
sampling, and with no sampling configuration exactly that one event is
handed over. -/
theorem hook_single_event_on_double_signal (i : HookInputs)
    (sampling : Option SamplingOptions) :
    ((logEvent i sampling { hasLogged := false, batch := [] }).2 ++
        (logEvent i sampling
          (logEvent i sampling { hasLogged := false, batch := [] }).1).2).length = 1
    ∧ (logEvent i sampling
        (logEvent i sampling { hasLogged := false, batch := [] }).1).1.batch =
      (if shouldSampleEvent (buildEvent i) sampling = true then [buildEvent i] else [])
    ∧ (sampling = none →
        (logEvent i sampling
          (logEvent i sampling { hasLogged := false, batch := [] }).1).1.batch =
        [buildEvent i]) := by
  refine ⟨?_, ?_, ?_⟩
  · simp [logEvent]
  · simp [logEvent]
  · rintro rfl
    simp [logEvent, shouldSampleEvent]

/-- Witness for C8 at concrete hook inputs without sampling
configuration. -/
theorem hook_single_event_on_double_signal_witness :
    ((logEvent sampleHookInputs none { hasLogged := false, batch := [] }).2 ++
        (logEvent sampleHookInputs none
          (logEvent sampleHookInputs none { hasLogged := false, batch := [] }).1).2).length = 1
    ∧ (logEvent sampleHookInputs none
        (logEvent sampleHookInputs none { hasLogged := false, batch := [] }).1).1.batch =
      (if shouldSampleEvent (buildEvent sampleHookInputs) none = true
        then [buildEvent sampleHookInputs] else [])
    ∧ (none = (none : Option SamplingOptions) →
        (logEvent sampleHookInputs none
          (logEvent sampleHookInputs none { hasLogged := false, batch := [] }).1).1.batch =
        [buildEvent sampleHookInputs]) :=
  hook_single_event_on_double_signal sampleHookInputs none

end AutoTrace
